import Mathlib

/-!
Verification of the quantization-dialect operation logic
(`tensorflow/compiler/mlir/quantization/ir/quant_ops.cc`): the quantization
specification checker `isValidQuantizationSpec`, the verifiers
`QuantizeRegionOp::verify` and `StatisticsOp::verify`, and the folder
`StorageCastOp::fold`, shallowly embedded over a closed model of the MLIR
types and attributes the code inspects.
-/

namespace QuantIR

/-- Model of the MLIR types this code discriminates between: floating-point
scalars, integer scalars, the index type, quantized types (which carry their
declared expressed type), and the two shaped container kinds the code tests
for (`TensorType`, `VectorType`), each carrying a shape and an element type. -/
inductive MType where
  | float (width : Nat)
  | int (width : Nat)
  | index
  | quant (expressed : MType)
  | tensor (shape : List Int) (elem : MType)
  | vector (shape : List Int) (elem : MType)
deriving DecidableEq

/-- `spec.isa<TensorType, VectorType>()`: the type is one of the two container
kinds. -/
def MType.isContainer : MType → Bool
  | .tensor _ _ => true
  | .vector _ _ => true
  | _ => false

/-- `isa<FloatType>()`. -/
def MType.isFloat : MType → Bool
  | .float _ => true
  | _ => false

/-- `dyn_cast<QuantizedType>()`, yielding the declared expressed type. -/
def MType.dynCastQuant : MType → Option MType
  | .quant e => some e
  | _ => none

/-- `dyn_cast<TensorType>()`, yielding shape and element type. -/
def MType.dynCastTensor : MType → Option (List Int × MType)
  | .tensor sh e => some (sh, e)
  | _ => none

/-- Element type of a tensor or vector container, if the type is one. -/
def MType.containerElem : MType → Option MType
  | .tensor _ e => some e
  | .vector _ e => some e
  | _ => none

/-- Model of an MLIR attribute as far as this code inspects it: either a
`TypeAttr` carrying a type, or some other (non-type-valued) attribute. -/
inductive MAttr where
  | typeAttr (t : MType)
  | nonType (id : Nat)
deriving DecidableEq

/-- Modelled from the spec: `QuantizedType::isCompatibleExpressedType` is
implemented in `quant_types.cc`, which is not part of this source fragment.
Per the spec, a quantized type accepts an expressed type iff it "declares
`expressed` as its compatible expressed (pre-quantization) numeric type",
where the expressed type may be supplied either as a scalar or as the element
type of a tensor/vector container (the data model notes the compared type
"must not itself be a container type"). `declared` is the quantized type's
declared expressed type. -/
def isCompatibleExpressedType (declared candidate : MType) : Bool :=
  match candidate.containerElem with
  | some elem => declared == elem
  | none => declared == candidate

/-- `isValidQuantizationSpec` from `quant_ops.cc` lines 57-76: a non-type
attribute is rejected; a container-typed spec is rejected; a quantized-typed
spec defers to `isCompatibleExpressedType`; otherwise the spec must equal the
element type of a tensor/vector expressed type; any remaining case (including
a scalar expressed type paired with a plain scalar spec) falls through to
`return false`. -/
def isValidQuantizationSpec (quantSpec : MAttr) (expressed : MType) : Bool :=
  match quantSpec with
  | .nonType _ => false
  | .typeAttr spec =>
    if spec.isContainer then false
    else
      match spec.dynCastQuant with
      | some declared => isCompatibleExpressedType declared expressed
      | none =>
        match expressed.dynCastTensor with
        | some (_, elem) => spec == elem
        | none =>
          match expressed with
          | .vector _ elem => spec == elem
          | _ => false

/-- Verification failures of `QuantizeRegionOp::verify`, following the error
messages emitted by the source: one arity error, and one incompatibility error
per side carrying the offending spec attribute and type (the source prints
exactly these two pieces of data). -/
inductive RegionError where
  | arityMismatch
  | incompatibleInput (spec : MAttr) (ty : MType)
  | incompatibleOutput (spec : MAttr) (ty : MType)
deriving DecidableEq

/-- A region operation as far as `QuantizeRegionOp::verify` inspects it:
operand types, result types, and the two spec-attribute arrays. -/
structure QuantizeRegionOp where
  operandTypes : List MType
  resultTypes : List MType
  input_specs : List MAttr
  output_specs : List MAttr
deriving DecidableEq

/-- The lockstep loop `for (auto input : llvm::zip(types, specs))` with its
fail-fast `return emitOpError(...)`: the first (spec, type) pair failing
`isValidQuantizationSpec`, if any. Like `llvm::zip`, it stops at the shorter
list (the verifier only reaches it when the lengths are equal). -/
def firstInvalidPair : List MType → List MAttr → Option (MAttr × MType)
  | t :: ts, s :: ss =>
    if isValidQuantizationSpec s t then firstInvalidPair ts ss else some (s, t)
  | _, _ => none

/-- Every lockstep (type, spec) pair passes the checker. -/
def allPairsValid : List MType → List MAttr → Bool
  | t :: ts, s :: ss => isValidQuantizationSpec s t && allPairsValid ts ss
  | _, _ => true

/-- `QuantizeRegionOp::verify` from `quant_ops.cc` lines 78-104: arity check
on both sides first, then the input pairs in order, then the output pairs. -/
def QuantizeRegionOp.verify (op : QuantizeRegionOp) : Except RegionError Unit :=
  if op.operandTypes.length != op.input_specs.length ||
      op.resultTypes.length != op.output_specs.length then
    .error .arityMismatch
  else
    match firstInvalidPair op.operandTypes op.input_specs with
    | some (s, t) => .error (.incompatibleInput s t)
    | none =>
      match firstInvalidPair op.resultTypes op.output_specs with
      | some (s, t) => .error (.incompatibleOutput s t)
      | none => .ok ()

/-- A shaped type as inspected through `getRank` / `getDimSize` /
`getElementType`: the type of a statistics attribute. -/
structure ShapedTy where
  shape : List Int
  elementType : MType
deriving DecidableEq

/-- `ShapedType::getRank()`. -/
def ShapedTy.rank (t : ShapedTy) : Nat := t.shape.length

/-- `ShapedType::getDimSize(i)`; the source only calls it after the rank
check has pinned the index in range, so the out-of-range default is inert. -/
def ShapedTy.getDimSize (t : ShapedTy) (i : Nat) : Int := t.shape.getD i 0

/-- Verification failures of `StatisticsOp::verify`, one per `emitOpError`
site in the source. -/
inductive StatsError where
  | nonTensorArg
  | layerStatsNotFloat
  | layerStatsBadShape
  | missingAxis
  | axisStatsNotFloat
  | axisStatsBadShape
deriving DecidableEq

/-- A statistics operation as far as `StatisticsOp::verify` inspects it: the
operand type, the shaped type of the `layerStats` attribute, the optional
shaped type of the `axisStats` attribute, and the optional axis index. -/
structure StatisticsOp where
  argType : MType
  layerStatsType : ShapedTy
  axisStatsType : Option ShapedTy
  axis : Option Nat
deriving DecidableEq

/-- `std::accumulate(std::next(shape.begin(), axis), shape.end(), 1,
std::multiplies<int64_t>())`: the product of the dimensions from index `axis`
(inclusive) through the last one. An axis beyond the rank is undefined
behaviour in the source; here it yields the empty product. -/
def argSliceSize (shape : List Int) (axis : Nat) : Int :=
  (shape.drop axis).foldl (· * ·) 1

/-- `StatisticsOp::verify` from `quant_ops.cc` lines 106-142: tensor-operand
check, then the `layerStats` element-type and shape checks, then — only when
`axisStats` is present — the axis-presence check followed by the `axisStats`
element-type and shape checks against the computed slice size. -/
def StatisticsOp.verify (op : StatisticsOp) : Except StatsError Unit :=
  match op.argType.dynCastTensor with
  | none => .error .nonTensorArg
  | some (shape, _) =>
    if !op.layerStatsType.elementType.isFloat then
      .error .layerStatsNotFloat
    else if op.layerStatsType.rank != 1 || op.layerStatsType.getDimSize 0 != 2 then
      .error .layerStatsBadShape
    else
      match op.axisStatsType with
      | none => .ok ()
      | some axisStatsType =>
        match op.axis with
        | none => .error .missingAxis
        | some axis =>
          if !axisStatsType.elementType.isFloat then
            .error .axisStatsNotFloat
          else if axisStatsType.rank != 2 || axisStatsType.getDimSize 1 != 2 ||
              axisStatsType.getDimSize 0 != argSliceSize shape axis then
            .error .axisStatsBadShape
          else .ok ()

/-- An SSA value as far as `StorageCastOp::fold` inspects it: either the
result of a storage-cast operation (recording that operation's operand and
result type), or a value produced by anything else, of which only the type is
relevant. -/
inductive Value where
  | scastResult (arg : Value) (resultType : MType)
  | source (id : Nat) (ty : MType)
deriving DecidableEq

/-- `Value::getType()`. -/
def Value.getType : Value → MType
  | .scastResult _ rt => rt
  | .source _ t => t

/-- A storage-cast operation: its operand value and its result type. -/
structure StorageCastOp where
  arg : Value
  resultType : MType
deriving DecidableEq

/-- `value.getDefiningOp<StorageCastOp>()`. -/
def Value.getDefiningScastOp : Value → Option StorageCastOp
  | .scastResult a rt => some ⟨a, rt⟩
  | .source _ _ => none

/-- `StorageCastOp::fold` from `quant_ops.cc` lines 47-54: if the operand is
itself the result of a storage cast whose operand type equals this op's
result type, fold to that inner operand; otherwise no fold. -/
def StorageCastOp.fold (op : StorageCastOp) : Option Value :=
  match op.arg.getDefiningScastOp with
  | none => none
  | some srcScastOp =>
    if srcScastOp.arg.getType != op.resultType then none
    else some srcScastOp.arg

/-! ## Helper lemmas -/

/-- The inner fold rule, characterized: `fold` returns `some v` exactly when
the operand is the result of a storage cast whose operand type equals the
outer result type, and then `v` is that inner operand. -/
lemma fold_eq_some_iff (op : StorageCastOp) (v : Value) :
    op.fold = some v ↔
      ∃ srcScastOp, op.arg.getDefiningScastOp = some srcScastOp ∧
        srcScastOp.arg.getType = op.resultType ∧ v = srcScastOp.arg := by
  obtain ⟨arg, rt⟩ := op
  cases arg with
  | source i t =>
    simp [StorageCastOp.fold, Value.getDefiningScastOp]
  | scastResult a art =>
    by_cases h : a.getType = rt
    · simp [StorageCastOp.fold, Value.getDefiningScastOp, h, eq_comm]
    · simp [StorageCastOp.fold, Value.getDefiningScastOp, h]

/-! Theorems settling the claims. -/

/-- C5: a specification attribute carrying a tensor or vector container type
is rejected by `isValidQuantizationSpec` regardless of the expressed type,
and so is any attribute that is not type-valued. -/
theorem C5_container_or_nontype_rejected (e el : MType) (sh : List Int) (n : Nat) :
    isValidQuantizationSpec (.typeAttr (.tensor sh el)) e = false ∧
    isValidQuantizationSpec (.typeAttr (.vector sh el)) e = false ∧
    isValidQuantizationSpec (.nonType n) e = false :=
  ⟨rfl, rfl, rfl⟩

/-- C6: for a specification attribute carrying a quantized type,
`isValidQuantizationSpec` returns true iff that quantized type declares the
given expressed type as its compatible expressed (pre-quantization) type. -/
theorem C6_quantized_spec_compatibility (d e : MType) :
    isValidQuantizationSpec (.typeAttr (.quant d)) e = isCompatibleExpressedType d e :=
  rfl

/-- C2 counterexample: the claim says a plain scalar spec equal to a scalar
expressed type is accepted, but the code falls through to `return false`:
a `f32` spec against a `f32` expressed type is rejected. -/
theorem C2_counterexample :
    ¬ isValidQuantizationSpec (.typeAttr (.float 32)) (.float 32) = true := by
  decide

/-- C2 (amended): for a plain spec type (neither container nor quantized),
`isValidQuantizationSpec` accepts iff the expressed type is a tensor or
vector container whose element type equals the spec; a scalar expressed type
is always rejected, even when it equals the spec. -/
theorem C2_plain_spec (t e : MType)
    (hc : t.isContainer = false) (hq : t.dynCastQuant = none) :
    (∀ el, e.containerElem = some el →
      isValidQuantizationSpec (.typeAttr t) e = (t == el)) ∧
    (e.containerElem = none →
      isValidQuantizationSpec (.typeAttr t) e = false) := by
  cases e <;>
    simp_all [isValidQuantizationSpec, MType.containerElem, MType.dynCastTensor]

/-- C2 witness: a `f32` spec against a `tensor<2xf32>` expressed type is
accepted, via `C2_plain_spec`. -/
theorem C2_plain_spec_witness :
    isValidQuantizationSpec (.typeAttr (.float 32)) (.tensor [2] (.float 32)) = true :=
  ((C2_plain_spec (.float 32) (.tensor [2] (.float 32)) rfl rfl).1
    (.float 32) rfl).trans (by decide)

/-- C3: `StorageCastOp::fold` returns a value exactly when the operand is the
result of another storage cast whose own operand type equals the op's result
type, and then the returned value is that inner operand; in every other case
it returns nothing. -/
theorem C3_fold_characterization (op : StorageCastOp) (v : Value) :
    op.fold = some v ↔
      ∃ srcScastOp, op.arg.getDefiningScastOp = some srcScastOp ∧
        srcScastOp.arg.getType = op.resultType ∧ v = srcScastOp.arg :=
  fold_eq_some_iff op v

/-- C10: whenever `StorageCastOp::fold` returns a replacement value, that
value's type equals the result type of the folded operation. -/
theorem C10_fold_preserves_type (op : StorageCastOp) (v : Value)
    (h : op.fold = some v) :
    v.getType = op.resultType := by
  obtain ⟨src, -, hty, hv⟩ := (fold_eq_some_iff op v).mp h
  rw [hv, hty]

/-- C10 witness: a quantized-to-storage cast followed by its inverse folds to
the original value, whose type is the outer result type. -/
theorem C10_witness :
    (Value.source 0 (MType.quant (MType.float 32))).getType =
      (StorageCastOp.mk
        (.scastResult (.source 0 (.quant (.float 32))) (.int 8))
        (.quant (.float 32))).resultType :=
  C10_fold_preserves_type
    ⟨.scastResult (.source 0 (.quant (.float 32))) (.int 8), .quant (.float 32)⟩
    (.source 0 (.quant (.float 32))) rfl

/-- A shaped type has rank 1 and dimension-0 size 2 exactly when its shape is
`[2]`; the source's layer-stats condition in boolean form. -/
lemma layer_shape_cond_false_iff (t : ShapedTy) :
    ((t.rank != 1 || t.getDimSize 0 != 2) = false) ↔ t.shape = [2] := by
  obtain ⟨sh, e⟩ := t
  match sh with
  | [] => simp [ShapedTy.rank, ShapedTy.getDimSize]
  | [a] => simp [ShapedTy.rank, ShapedTy.getDimSize]
  | a :: b :: rest => simp [ShapedTy.rank, ShapedTy.getDimSize]

/-- C7: statistics verification fails when the operand is not a tensor type;
for a tensor operand, a non-floating-point layer-stats element type fails,
and a floating-point layer-stats attribute whose shape is not exactly rank 1
with size 2 (that is, not `[2]`) fails. -/
theorem C7_layer_checks (op : StatisticsOp) :
    (op.argType.dynCastTensor = none → op.verify = .error .nonTensorArg) ∧
    (∀ sh e, op.argType = .tensor sh e →
      (op.layerStatsType.elementType.isFloat = false →
        op.verify = .error .layerStatsNotFloat) ∧
      (op.layerStatsType.elementType.isFloat = true →
        op.layerStatsType.shape ≠ [2] →
        op.verify = .error .layerStatsBadShape)) := by
  refine ⟨fun h => by simp [StatisticsOp.verify, h], fun sh e harg => ⟨?_, ?_⟩⟩
  · intro hfl
    simp [StatisticsOp.verify, harg, MType.dynCastTensor, hfl]
  · intro hfl hshape
    have hcond : (op.layerStatsType.rank != 1 || op.layerStatsType.getDimSize 0 != 2) = true := by
      rcases hb : (op.layerStatsType.rank != 1 || op.layerStatsType.getDimSize 0 != 2) with - | -
      · exact absurd ((layer_shape_cond_false_iff _).mp hb) hshape
      · rfl
    simp [StatisticsOp.verify, harg, MType.dynCastTensor, hfl, hcond]

/-- C7 witness: a tensor-argument statistics op with float layer stats of
shape `[3]` is rejected with the bad-shape error, via `C7_layer_checks`. -/
theorem C7_witness :
    StatisticsOp.verify
      { argType := .tensor [2, 2] (.float 32), layerStatsType := ⟨[3], .float 32⟩,
        axisStatsType := none, axis := none } = .error .layerStatsBadShape :=
  ((C7_layer_checks _).2 [2, 2] (.float 32) rfl).2 rfl (by decide)

/-- C8: a statistics op with a tensor operand and well-formed layer stats
that carries an axis-stats attribute but no axis index fails with the
missing-axis error, whatever the axis-stats shape and element type are: the
axis-presence check precedes the axis-stats checks. -/
theorem C8_missing_axis (op : StatisticsOp) (sh : List Int) (e : MType)
    (ast : ShapedTy)
    (harg : op.argType = .tensor sh e)
    (hfl : op.layerStatsType.elementType.isFloat = true)
    (hls : op.layerStatsType.shape = [2])
    (hax : op.axisStatsType = some ast)
    (hnone : op.axis = none) :
    op.verify = .error .missingAxis := by
  have hcond : (op.layerStatsType.rank != 1 || op.layerStatsType.getDimSize 0 != 2) = false :=
    (layer_shape_cond_false_iff _).mpr hls
  simp [StatisticsOp.verify, harg, MType.dynCastTensor, hfl, hcond, hax, hnone]

/-- C8 witness: otherwise-valid axis stats (`[4,2]`, float) without an axis
index are rejected with the missing-axis error, via `C8_missing_axis`. -/
theorem C8_witness :
    StatisticsOp.verify
      { argType := .tensor [4] (.float 32), layerStatsType := ⟨[2], .float 32⟩,
        axisStatsType := some ⟨[4, 2], .float 32⟩, axis := none }
      = .error .missingAxis :=
  C8_missing_axis _ [4] (.float 32) ⟨[4, 2], .float 32⟩ rfl rfl rfl rfl rfl

/-- C1 counterexample: for an argument of shape `[4,5,6]` with axis 1, the
claim says axis-stats shape `[6,2]` is the valid one (slice size 6, the
product of the dimensions strictly after the axis); the code instead
requires 30, the product from the axis dimension onwards: shape `[6,2]` is
rejected and shape `[30,2]` is accepted. -/
theorem C1_counterexample :
    StatisticsOp.verify
      { argType := .tensor [4, 5, 6] (.float 32), layerStatsType := ⟨[2], .float 32⟩,
        axisStatsType := some ⟨[6, 2], .float 32⟩, axis := some 1 }
      = .error .axisStatsBadShape ∧
    StatisticsOp.verify
      { argType := .tensor [4, 5, 6] (.float 32), layerStatsType := ⟨[2], .float 32⟩,
        axisStatsType := some ⟨[30, 2], .float 32⟩, axis := some 1 }
      = .ok () :=
  ⟨rfl, rfl⟩

/-- C1 (amended): for a statistics op with a tensor operand, well-formed
layer stats, float axis stats of shape `[n,2]` and a supplied axis,
verification succeeds iff `n` equals the product of the argument's shape
dimensions from the axis index onwards (indices `axis .. rank-1`, axis
dimension included; empty product 1 when the axis is past the last
dimension). -/
theorem C1_slice_size (op : StatisticsOp) (shape : List Int) (e : MType)
    (a : Nat) (ast : ShapedTy) (n : Int)
    (harg : op.argType = .tensor shape e)
    (hlfl : op.layerStatsType.elementType.isFloat = true)
    (hlsh : op.layerStatsType.shape = [2])
    (hax : op.axisStatsType = some ast)
    (haxis : op.axis = some a)
    (hafl : ast.elementType.isFloat = true)
    (hash : ast.shape = [n, 2]) :
    (op.verify = .ok () ↔ n = (shape.drop a).foldl (· * ·) 1) := by
  have hcond : (op.layerStatsType.rank != 1 || op.layerStatsType.getDimSize 0 != 2) = false :=
    (layer_shape_cond_false_iff _).mpr hlsh
  have hrank : ast.rank = 2 := by simp [ShapedTy.rank, hash]
  have hdim1 : ast.getDimSize 1 = 2 := by simp [ShapedTy.getDimSize, hash]
  have hdim0 : ast.getDimSize 0 = n := by simp [ShapedTy.getDimSize, hash]
  by_cases hn : n = argSliceSize shape a
  · simp [StatisticsOp.verify, harg, MType.dynCastTensor, hlfl, hcond, hax,
      haxis, hafl, hrank, hdim1, hdim0, hn, argSliceSize]
  · simp [StatisticsOp.verify, harg, MType.dynCastTensor, hlfl, hcond, hax,
      haxis, hafl, hrank, hdim1, hdim0, hn, argSliceSize]

/-- C1 witness: shape `[4,5,6]`, axis 1, axis stats `[30,2]` verifies, via
`C1_slice_size` with `30 = 5 * 6 * 1`. -/
theorem C1_slice_size_witness :
    StatisticsOp.verify
      { argType := .tensor [4, 5, 6] (.float 32), layerStatsType := ⟨[2], .float 32⟩,
        axisStatsType := some ⟨[30, 2], .float 32⟩, axis := some 1 }
      = .ok () :=
  (C1_slice_size
    { argType := .tensor [4, 5, 6] (.float 32), layerStatsType := ⟨[2], .float 32⟩,
      axisStatsType := some ⟨[30, 2], .float 32⟩, axis := some 1 }
    [4, 5, 6] (.float 32) 1 ⟨[30, 2], .float 32⟩ 30
    rfl rfl rfl rfl rfl rfl rfl).mpr (by decide)

/-- The fail-fast loop finds no bad pair exactly when every lockstep pair is
valid. -/
lemma firstInvalidPair_none_iff (ts : List MType) (ss : List MAttr) :
    firstInvalidPair ts ss = none ↔ allPairsValid ts ss = true := by
  induction ts generalizing ss with
  | nil => cases ss <;> simp [firstInvalidPair, allPairsValid]
  | cons t ts ih =>
    cases ss with
    | nil => simp [firstInvalidPair, allPairsValid]
    | cons s ss =>
      by_cases h : isValidQuantizationSpec s t = true <;>
        simp [firstInvalidPair, allPairsValid, h, ih]

/-- The bad pair the fail-fast loop reports is a genuine lockstep pair and
fails the checker. -/
lemma firstInvalidPair_some_mem (ts : List MType) (ss : List MAttr)
    (s : MAttr) (t : MType) (h : firstInvalidPair ts ss = some (s, t)) :
    (t, s) ∈ ts.zip ss ∧ isValidQuantizationSpec s t = false := by
  induction ts generalizing ss with
  | nil => cases ss <;> simp [firstInvalidPair] at h
  | cons t1 ts ih =>
    cases ss with
    | nil => simp [firstInvalidPair] at h
    | cons s1 ss =>
      have hstep : firstInvalidPair (t1 :: ts) (s1 :: ss) =
          if isValidQuantizationSpec s1 t1 = true then firstInvalidPair ts ss
          else some (s1, t1) := rfl
      by_cases hv : isValidQuantizationSpec s1 t1 = true
      · rw [hstep, if_pos hv] at h
        obtain ⟨hm, hb⟩ := ih ss h
        exact ⟨List.mem_cons_of_mem _ hm, hb⟩
      · rw [hstep, if_neg hv] at h
        obtain ⟨hs1, ht1⟩ : s1 = s ∧ t1 = t := by
          simpa using h
        subst hs1; subst ht1
        exact ⟨List.mem_cons_self _ _, by simpa using hv⟩

/-- When a valid lockstep prefix is followed by an invalid pair, the
fail-fast loop reports exactly that pair. -/
lemma firstInvalidPair_append (ts1 ts2 : List MType) (ss1 ss2 : List MAttr)
    (t : MType) (s : MAttr)
    (hlen : ts1.length = ss1.length)
    (hval : allPairsValid ts1 ss1 = true)
    (hbad : isValidQuantizationSpec s t = false) :
    firstInvalidPair (ts1 ++ t :: ts2) (ss1 ++ s :: ss2) = some (s, t) := by
  induction ts1 generalizing ss1 with
  | nil =>
    cases ss1 with
    | nil => simp [firstInvalidPair, hbad]
    | cons s1 ss1 => exact absurd hlen (by simp)
  | cons t1 ts1 ih =>
    cases ss1 with
    | nil => exact absurd hlen (by simp)
    | cons s1 ss1 =>
      simp only [allPairsValid, Bool.and_eq_true] at hval
      simp only [List.cons_append, firstInvalidPair, hval.1, if_pos]
      exact ih ss1 (by simpa using hlen) hval.2

/-- `QuantizeRegionOp::verify` once the arity check passes: unfolded to the
two fail-fast loops. -/
lemma region_verify_of_lengths (op : QuantizeRegionOp)
    (h1 : op.operandTypes.length = op.input_specs.length)
    (h2 : op.resultTypes.length = op.output_specs.length) :
    op.verify =
      match firstInvalidPair op.operandTypes op.input_specs with
      | some (s, t) => .error (.incompatibleInput s t)
      | none =>
        match firstInvalidPair op.resultTypes op.output_specs with
        | some (s, t) => .error (.incompatibleOutput s t)
        | none => .ok () := by
  have hcond : (op.operandTypes.length != op.input_specs.length ||
      op.resultTypes.length != op.output_specs.length) = false := by
    simp [h1, h2]
  simp [QuantizeRegionOp.verify, hcond]

/-- `QuantizeRegionOp::verify` when the arity check fires. -/
lemma region_verify_arity (op : QuantizeRegionOp)
    (h : op.operandTypes.length ≠ op.input_specs.length ∨
        op.resultTypes.length ≠ op.output_specs.length) :
    op.verify = .error .arityMismatch := by
  have hcond : (op.operandTypes.length != op.input_specs.length ||
      op.resultTypes.length != op.output_specs.length) = true := by
    rcases h with h | h <;> simp [h]
  simp [QuantizeRegionOp.verify, hcond]

/-- C4: region-operation verification fails with the arity error when the
operand count differs from the input-spec count or the result count from the
output-spec count; when both counts match it succeeds iff every lockstep
(operand type, input spec) and (result type, output spec) pair passes
`isValidQuantizationSpec`; every incompatibility error blames a genuine
invalid lockstep pair of the operation; and when a valid prefix is followed
by an invalid pair (in particular when that pair is the only invalid one),
verification fails blaming exactly that pair, on the input side and on the
output side. -/
theorem C4_region_verify (op : QuantizeRegionOp) :
    ((op.operandTypes.length ≠ op.input_specs.length ∨
        op.resultTypes.length ≠ op.output_specs.length) →
      op.verify = .error .arityMismatch) ∧
    (op.operandTypes.length = op.input_specs.length →
      op.resultTypes.length = op.output_specs.length →
      (op.verify = .ok () ↔
        allPairsValid op.operandTypes op.input_specs = true ∧
        allPairsValid op.resultTypes op.output_specs = true)) ∧
    (∀ s t, op.verify = .error (.incompatibleInput s t) →
      (t, s) ∈ op.operandTypes.zip op.input_specs ∧
      isValidQuantizationSpec s t = false) ∧
    (∀ s t, op.verify = .error (.incompatibleOutput s t) →
      (t, s) ∈ op.resultTypes.zip op.output_specs ∧
      isValidQuantizationSpec s t = false) ∧
    (∀ ts1 t ts2 ss1 s ss2,
      op.operandTypes = ts1 ++ t :: ts2 →
      op.input_specs = ss1 ++ s :: ss2 →
      ts1.length = ss1.length →
      op.operandTypes.length = op.input_specs.length →
      op.resultTypes.length = op.output_specs.length →
      allPairsValid ts1 ss1 = true →
      isValidQuantizationSpec s t = false →
      op.verify = .error (.incompatibleInput s t)) ∧
    (∀ ts1 t ts2 ss1 s ss2,
      op.resultTypes = ts1 ++ t :: ts2 →
      op.output_specs = ss1 ++ s :: ss2 →
      ts1.length = ss1.length →
      op.operandTypes.length = op.input_specs.length →
      op.resultTypes.length = op.output_specs.length →
      allPairsValid op.operandTypes op.input_specs = true →
      allPairsValid ts1 ss1 = true →
      isValidQuantizationSpec s t = false →
      op.verify = .error (.incompatibleOutput s t)) := by
  refine ⟨region_verify_arity op, ?_, ?_, ?_, ?_, ?_⟩
  · intro h1 h2
    rw [region_verify_of_lengths op h1 h2]
    rcases hin : firstInvalidPair op.operandTypes op.input_specs with - | ⟨s, t⟩
    · rcases hout : firstInvalidPair op.resultTypes op.output_specs with - | ⟨s, t⟩
      · simp [(firstInvalidPair_none_iff _ _).mp hin,
          (firstInvalidPair_none_iff _ _).mp hout]
      · constructor
        · intro h; simp at h
        · rintro ⟨-, hall⟩
          rw [← firstInvalidPair_none_iff] at hall
          rw [hall] at hout
          cases hout
    · constructor
      · intro h; simp at h
      · rintro ⟨hall, -⟩
        rw [← firstInvalidPair_none_iff] at hall
        rw [hall] at hin
        cases hin
  · intro s t h
    by_cases h1 : op.operandTypes.length = op.input_specs.length
    · by_cases h2 : op.resultTypes.length = op.output_specs.length
      · rw [region_verify_of_lengths op h1 h2] at h
        rcases hin : firstInvalidPair op.operandTypes op.input_specs with - | ⟨s1, t1⟩ <;>
          rw [hin] at h
        · rcases hout : firstInvalidPair op.resultTypes op.output_specs with - | ⟨s1, t1⟩ <;>
            rw [hout] at h <;> simp at h
        · simp only [Except.error.injEq, RegionError.incompatibleInput.injEq] at h
          obtain ⟨hs, ht⟩ := h
          subst hs; subst ht
          exact firstInvalidPair_some_mem _ _ _ _ hin
      · rw [region_verify_arity op (Or.inr h2)] at h
        simp at h
    · rw [region_verify_arity op (Or.inl h1)] at h
      simp at h
  · intro s t h
    by_cases h1 : op.operandTypes.length = op.input_specs.length
    · by_cases h2 : op.resultTypes.length = op.output_specs.length
      · rw [region_verify_of_lengths op h1 h2] at h
        rcases hin : firstInvalidPair op.operandTypes op.input_specs with - | ⟨s1, t1⟩ <;>
          rw [hin] at h
        · rcases hout : firstInvalidPair op.resultTypes op.output_specs with - | ⟨s1, t1⟩ <;>
            rw [hout] at h
          · simp at h
          · simp only [Except.error.injEq, RegionError.incompatibleOutput.injEq] at h
            obtain ⟨hs, ht⟩ := h
            subst hs; subst ht
            exact firstInvalidPair_some_mem _ _ _ _ hout
        · simp at h
      · rw [region_verify_arity op (Or.inr h2)] at h
        simp at h
    · rw [region_verify_arity op (Or.inl h1)] at h
      simp at h
  · intro ts1 t ts2 ss1 s ss2 hts hss hlen h1 h2 hval hbad
    rw [region_verify_of_lengths op h1 h2, hts, hss,
      firstInvalidPair_append ts1 ts2 ss1 ss2 t s hlen hval hbad]
  · intro ts1 t ts2 ss1 s ss2 hts hss hlen h1 h2 hinval hval hbad
    rw [region_verify_of_lengths op h1 h2,
      (firstInvalidPair_none_iff _ _).mpr hinval, hts, hss,
      firstInvalidPair_append ts1 ts2 ss1 ss2 t s hlen hval hbad]

/-- C4 witness: one operand of type `tensor<2xf32>` paired with an `i8` spec
(invalid) and no results: verification blames exactly that pair, via the
input-side single-bad-pair conjunct of `C4_region_verify`. -/
theorem C4_witness :
    QuantizeRegionOp.verify
      { operandTypes := [.tensor [2] (.float 32)], resultTypes := [],
        input_specs := [.typeAttr (.int 8)], output_specs := [] }
      = .error (.incompatibleInput (.typeAttr (.int 8)) (.tensor [2] (.float 32))) :=
  (C4_region_verify
    { operandTypes := [.tensor [2] (.float 32)], resultTypes := [],
      input_specs := [.typeAttr (.int 8)], output_specs := [] }).2.2.2.2.1
    [] (.tensor [2] (.float 32)) [] [] (.typeAttr (.int 8)) []
    rfl rfl rfl rfl rfl rfl rfl

end QuantIR
